import Mathlib

/-!
Shallow embedding of the logging facade in `src/src/log.rs` of
`ngx-rust-static`: the `DebugMask` enumeration, its bidirectional
conversion with the host's `u32` flag constants, the `check_mask`
predicate, and the five logging entry-point macros modelled as pure
functions returning their observable effects (how many messages were
formatted and the exact calls forwarded to the host write primitives).
-/

namespace NgxRust

/-- Modelled from the spec: the host-defined numeric constant
`NGX_LOG_DEBUG_CORE` (the `ffi` bindings are generated from the external
host's headers and are not part of `src/`); nginx defines it as `0x010`. -/
def NGX_LOG_DEBUG_CORE : Nat := 0x010

/-- Modelled from the spec: host constant `NGX_LOG_DEBUG_ALLOC` (`0x020`). -/
def NGX_LOG_DEBUG_ALLOC : Nat := 0x020

/-- Modelled from the spec: host constant `NGX_LOG_DEBUG_MUTEX` (`0x040`). -/
def NGX_LOG_DEBUG_MUTEX : Nat := 0x040

/-- Modelled from the spec: host constant `NGX_LOG_DEBUG_EVENT` (`0x080`). -/
def NGX_LOG_DEBUG_EVENT : Nat := 0x080

/-- Modelled from the spec: host constant `NGX_LOG_DEBUG_HTTP` (`0x100`). -/
def NGX_LOG_DEBUG_HTTP : Nat := 0x100

/-- Modelled from the spec: host constant `NGX_LOG_DEBUG_MAIL` (`0x200`). -/
def NGX_LOG_DEBUG_MAIL : Nat := 0x200

/-- Modelled from the spec: host constant `NGX_LOG_DEBUG_STREAM` (`0x400`). -/
def NGX_LOG_DEBUG_STREAM : Nat := 0x400

/-- Modelled from the spec: host constant `NGX_LOG_DEBUG_ALL`, the bitwise
union sentinel (`0x7ffffff0`). -/
def NGX_LOG_DEBUG_ALL : Nat := 0x7ffffff0

/-- Modelled from the spec: the host's fixed numeric severity for the debug
level, `NGX_LOG_DEBUG` (`8`). -/
def NGX_LOG_DEBUG : Nat := 8

/-- The `DebugMask` enumeration of `src/src/log.rs`: one variant per
host-defined debug-category bit flag. -/
inductive DebugMask where
  | Core
  | Alloc
  | Mutex
  | Event
  | Http
  | Mail
  | Stream
  | All
deriving DecidableEq, Repr

/-- `impl From<DebugMask> for u32` of `src/src/log.rs`: total table lookup
from variant to the host's numeric flag constant. -/
def u32_from_DebugMask : DebugMask → Nat
  | .Core => NGX_LOG_DEBUG_CORE
  | .Alloc => NGX_LOG_DEBUG_ALLOC
  | .Mutex => NGX_LOG_DEBUG_MUTEX
  | .Event => NGX_LOG_DEBUG_EVENT
  | .Http => NGX_LOG_DEBUG_HTTP
  | .Mail => NGX_LOG_DEBUG_MAIL
  | .Stream => NGX_LOG_DEBUG_STREAM
  | .All => NGX_LOG_DEBUG_ALL

/-- `impl TryFrom<u32> for DebugMask` of `src/src/log.rs`: matches the input
against the eight host constants in source order; the catch-all arm is
literally `Err(0)` in the source. -/
def DebugMask.try_from (value : Nat) : Except Nat DebugMask :=
  if value = NGX_LOG_DEBUG_CORE then .ok .Core
  else if value = NGX_LOG_DEBUG_ALLOC then .ok .Alloc
  else if value = NGX_LOG_DEBUG_MUTEX then .ok .Mutex
  else if value = NGX_LOG_DEBUG_EVENT then .ok .Event
  else if value = NGX_LOG_DEBUG_HTTP then .ok .Http
  else if value = NGX_LOG_DEBUG_MAIL then .ok .Mail
  else if value = NGX_LOG_DEBUG_STREAM then .ok .Stream
  else if value = NGX_LOG_DEBUG_ALL then .ok .All
  else .error 0

/-- `check_mask` of `src/src/log.rs`: convert the mask to its `u32` bits,
zero-extend to `usize`, AND with the log level, and return `false` exactly
when the result is zero. -/
def check_mask (mask : DebugMask) (log_level : Nat) : Bool :=
  let mask_bits : Nat := u32_from_DebugMask mask
  if log_level &&& mask_bits = 0 then false
  else true

/-- The host's `ngx_log_t` sink handle, reduced to the one field this module
reads through it. -/
structure ngx_log_t where
  log_level : Nat
deriving DecidableEq, Repr

/-- The host's `ngx_conf_t` configuration context, reduced to its embedded
log reference. -/
structure ngx_conf_t where
  log : ngx_log_t
deriving DecidableEq, Repr

/-- The host's `ngx_connection_t`, reduced to its log reference. -/
structure ngx_connection_t where
  log : ngx_log_t
deriving DecidableEq, Repr

/-- An http request, reduced to the accessor to its owning connection. -/
structure ngx_request_t where
  connection : ngx_connection_t
deriving DecidableEq, Repr

/-- One call forwarded to the host's core error-writing primitive
`ngx_log_error_core(level, log, err, fmt, len, ptr)`: severity level, sink
handle, the reserved error-code slot, the byte length and the bytes. -/
structure CoreLogCall where
  level : Nat
  log : ngx_log_t
  err : Nat
  len : Nat
  bytes : List UInt8
deriving DecidableEq, Repr

/-- One call forwarded to the host's configuration-log primitive
`ngx_conf_log_error(level, cf, err, fmt, len, ptr)`. -/
structure ConfLogCall where
  level : Nat
  cf : ngx_conf_t
  err : Nat
  len : Nat
  bytes : List UInt8
deriving DecidableEq, Repr

/-- Observable effects of one entry-point invocation: how many times the
message was formatted and the list of calls handed to the core primitive. -/
structure LogEffects where
  formats : Nat
  writes : List CoreLogCall
deriving DecidableEq, Repr

/-- Observable effects of one `ngx_conf_log_error` invocation. -/
structure ConfLogEffects where
  formats : Nat
  writes : List ConfLogCall
deriving DecidableEq, Repr

/-- The `ngx_log_error` macro of `src/src/log.rs`: if `level < log.log_level`
format the message (the formatted bytes are `msg`) and forward
`(level, log, 0, len, bytes)` to `ngx_log_error_core`; otherwise do
nothing. -/
def ngx_log_error (level : Nat) (log : ngx_log_t) (msg : List UInt8) :
    LogEffects :=
  if level < log.log_level then
    { formats := 1
      writes := [{ level := level, log := log, err := 0, len := msg.length,
                   bytes := msg }] }
  else
    { formats := 0, writes := [] }

/-- The `ngx_conf_log_error` macro of `src/src/log.rs`: same shape, reading
the sink through `(*cf).log` and forwarding to the configuration-log
primitive. -/
def ngx_conf_log_error (level : Nat) (cf : ngx_conf_t) (msg : List UInt8) :
    ConfLogEffects :=
  if level < cf.log.log_level then
    { formats := 1
      writes := [{ level := level, cf := cf, err := 0, len := msg.length,
                   bytes := msg }] }
  else
    { formats := 0, writes := [] }

/-- The explicit-mask arm of the `ngx_log_debug` macro of `src/src/log.rs`:
if `check_mask mask (*log).log_level` passes, format and forward at the
fixed `NGX_LOG_DEBUG` severity with a zero error-code slot. -/
def ngx_log_debug_mask (mask : DebugMask) (log : ngx_log_t)
    (msg : List UInt8) : LogEffects :=
  if check_mask mask log.log_level then
    { formats := 1
      writes := [{ level := NGX_LOG_DEBUG, log := log, err := 0,
                   len := msg.length, bytes := msg }] }
  else
    { formats := 0, writes := [] }

/-- The default arm of the `ngx_log_debug` macro of `src/src/log.rs`: it
expands to the explicit-mask arm with `DebugMask::All`. -/
def ngx_log_debug (log : ngx_log_t) (msg : List UInt8) : LogEffects :=
  ngx_log_debug_mask DebugMask.All log msg

/-- The `ngx_log_debug_http` macro of `src/src/log.rs`: reads the log from
the request's connection and expands to the explicit-mask arm with
`DebugMask::Http`. -/
def ngx_log_debug_http (r : ngx_request_t) (msg : List UInt8) : LogEffects :=
  ngx_log_debug_mask DebugMask.Http r.connection.log msg

/-- Shared helper: `check_mask` passes exactly when the AND of the log level
with the mask's numeric bits is non-zero. -/
lemma check_mask_true_iff (m : DebugMask) (L : Nat) :
    check_mask m L = true ↔ L &&& u32_from_DebugMask m ≠ 0 := by
  unfold check_mask
  by_cases h : L &&& u32_from_DebugMask m = 0 <;> simp [h]

/-- Shared helper: ANDing with a value below `2 ^ 32` only looks at the low
32 bits of the other operand. -/
lemma land_mod_two_pow_32 (L c : Nat) (h : c < 2 ^ 32) :
    L % 2 ^ 32 &&& c = L &&& c := by
  apply Nat.eq_of_testBit_eq
  intro i
  rw [Nat.testBit_and, Nat.testBit_and, Nat.testBit_mod_two_pow]
  by_cases hi : i < 32
  · simp [hi]
  · have hc : Nat.testBit c i = false := by
      apply Nat.testBit_lt_two_pow
      calc c < 2 ^ 32 := h
        _ ≤ 2 ^ i := Nat.pow_le_pow_right (by norm_num) (Nat.le_of_not_lt hi)
    simp [hi, hc]

/-- Shared helper: every mask's numeric value fits in 32 bits. -/
lemma u32_from_DebugMask_lt (m : DebugMask) :
    u32_from_DebugMask m < 2 ^ 32 := by
  cases m <;> decide

end NgxRust

namespace NgxRust

/-- C1: for every `DebugMask` variant `m` and unsigned log-level bitfield
`L`, `check_mask m L` returns `true` iff the bitwise AND of `m`'s numeric
bit value with `L` is non-zero; the function is total (a total Lean
function) and pure. -/
theorem check_mask_spec (m : DebugMask) (L : Nat) :
    check_mask m L = true ↔ u32_from_DebugMask m &&& L ≠ 0 := by
  rw [Nat.and_comm]
  exact check_mask_true_iff m L

/-- Witness for C1 at `m = Core`, `L = 16`. -/
theorem check_mask_spec_witness : check_mask DebugMask.Core 16 = true :=
  (check_mask_spec DebugMask.Core 16).mpr (by decide)

/-- C8: for the log-level value with only the `Core` bit set (`0x010`), the
mask filter returns `true` for `Core` and `false` for every other
single-category mask. -/
theorem check_mask_core_only :
    check_mask DebugMask.Core 0x010 = true ∧
    check_mask DebugMask.Alloc 0x010 = false ∧
    check_mask DebugMask.Mutex 0x010 = false ∧
    check_mask DebugMask.Event 0x010 = false ∧
    check_mask DebugMask.Http 0x010 = false ∧
    check_mask DebugMask.Mail 0x010 = false ∧
    check_mask DebugMask.Stream 0x010 = false := by
  decide

/-- C10: bits of the log-level field above bit 31 never affect the filter:
`check_mask m L = check_mask m (L % 2 ^ 32)`, because the mask's numeric
value is a 32-bit quantity zero-extended before the AND. -/
theorem check_mask_mod_two_pow (m : DebugMask) (L : Nat) :
    check_mask m L = check_mask m (L % 2 ^ 32) := by
  show (if L &&& u32_from_DebugMask m = 0 then false else true) =
    if L % 2 ^ 32 &&& u32_from_DebugMask m = 0 then false else true
  rw [land_mod_two_pow_32 L (u32_from_DebugMask m) (u32_from_DebugMask_lt m)]

/-- C5: for all eight `DebugMask` variants, enum → numeric → enum
round-trips to the original variant. -/
theorem debug_mask_round_trip (m : DebugMask) :
    DebugMask.try_from (u32_from_DebugMask m) = Except.ok m := by
  cases m <;> rfl

/-- C2 counterexample: the input `3` matches no defined flag constant, the
conversion fails, but the error payload is `0`, not the unmatched input
`3`. -/
theorem try_from_payload_counterexample :
    DebugMask.try_from 3 = Except.error 0 ∧
    DebugMask.try_from 3 ≠ Except.error 3 := by
  constructor
  · rfl
  · intro h
    rw [show DebugMask.try_from 3 = Except.error 0 from rfl] at h
    simp at h

/-- C2 (amended): for every `u32` input matching no defined flag constant
(including zero and unions of several flags), the conversion fails, and the
error it returns carries the literal value `0`, not the unmatched input. -/
theorem try_from_unmatched (v : Nat)
    (h1 : v ≠ NGX_LOG_DEBUG_CORE) (h2 : v ≠ NGX_LOG_DEBUG_ALLOC)
    (h3 : v ≠ NGX_LOG_DEBUG_MUTEX) (h4 : v ≠ NGX_LOG_DEBUG_EVENT)
    (h5 : v ≠ NGX_LOG_DEBUG_HTTP) (h6 : v ≠ NGX_LOG_DEBUG_MAIL)
    (h7 : v ≠ NGX_LOG_DEBUG_STREAM) (h8 : v ≠ NGX_LOG_DEBUG_ALL) :
    DebugMask.try_from v = Except.error 0 := by
  simp [DebugMask.try_from, h1, h2, h3, h4, h5, h6, h7, h8]

/-- Witness for the amended C2 at the unmatched input `3`. -/
theorem try_from_unmatched_witness : DebugMask.try_from 3 = Except.error 0 :=
  try_from_unmatched 3 (by decide) (by decide) (by decide) (by decide)
    (by decide) (by decide) (by decide) (by decide)

/-- C3: whenever the numeric-to-enum conversion fails, the error payload is
the literal value `0`, regardless of the unmatched input. -/
theorem try_from_error_is_zero (v e : Nat)
    (h : DebugMask.try_from v = Except.error e) : e = 0 := by
  unfold DebugMask.try_from at h
  split_ifs at h
  all_goals simp_all

/-- Witness for C3 at the unmatched input `3`. -/
theorem try_from_error_is_zero_witness : (0 : Nat) = 0 :=
  try_from_error_is_zero 3 0 rfl

/-- C4: if the severity level is numerically strictly below the sink's
threshold, `ngx_log_error` formats once and forwards exactly one message
(level, sink, zero error code, the formatted bytes with their length) to
the core error-writing primitive; at or above the threshold it forwards
nothing. -/
theorem ngx_log_error_spec (level : Nat) (log : ngx_log_t)
    (msg : List UInt8) :
    (level < log.log_level →
      ngx_log_error level log msg =
        { formats := 1
          writes := [{ level := level, log := log, err := 0,
                       len := msg.length, bytes := msg }] }) ∧
    (¬ level < log.log_level →
      ngx_log_error level log msg = { formats := 0, writes := [] }) := by
  constructor <;> intro h <;> simp [ngx_log_error, h]

/-- Witness for C4: level 3 against threshold 5 emits once; level 7 against
threshold 5 emits nothing. -/
theorem ngx_log_error_spec_witness :
    ngx_log_error 3 { log_level := 5 } [65] =
      { formats := 1
        writes := [{ level := 3, log := { log_level := 5 }, err := 0,
                     len := 1, bytes := [65] }] } ∧
    ngx_log_error 7 { log_level := 5 } [65] =
      { formats := 0, writes := [] } :=
  ⟨(ngx_log_error_spec 3 { log_level := 5 } [65]).1 (by decide),
   (ngx_log_error_spec 7 { log_level := 5 } [65]).2 (by decide)⟩

/-- Shared helper: the explicit-mask debug entry point emits iff the mask
filter predicate passes on the sink's log level. -/
lemma ngx_log_debug_mask_emits_iff (mask : DebugMask) (log : ngx_log_t)
    (msg : List UInt8) :
    (ngx_log_debug_mask mask log msg).writes ≠ [] ↔
      check_mask mask log.log_level = true := by
  by_cases h : check_mask mask log.log_level = true <;>
    simp [ngx_log_debug_mask, h]

/-- C6: the explicit-mask debug entry point emits iff the mask filter
predicate passes on the sink's current log level, and every forwarded
message is tagged at the fixed `NGX_LOG_DEBUG` severity with a zero
error-code slot. -/
theorem ngx_log_debug_mask_spec (mask : DebugMask) (log : ngx_log_t)
    (msg : List UInt8) :
    ((ngx_log_debug_mask mask log msg).writes ≠ [] ↔
      check_mask mask log.log_level = true) ∧
    ∀ c, c ∈ (ngx_log_debug_mask mask log msg).writes →
      c.level = NGX_LOG_DEBUG ∧ c.err = 0 := by
  refine ⟨ngx_log_debug_mask_emits_iff mask log msg, ?_⟩
  by_cases h : check_mask mask log.log_level = true <;>
    simp [ngx_log_debug_mask, h]

/-- Witness for C6 at mask `Core`, log level 16: the entry point emits, and
the emitted call is at debug severity with a zero error code. -/
theorem ngx_log_debug_mask_spec_witness :
    (ngx_log_debug_mask DebugMask.Core { log_level := 16 } [65]).writes ≠ [] ∧
    ((⟨NGX_LOG_DEBUG, { log_level := 16 }, 0, 1, [65]⟩ : CoreLogCall).level =
        NGX_LOG_DEBUG ∧
      (⟨NGX_LOG_DEBUG, { log_level := 16 }, 0, 1, [65]⟩ :
          CoreLogCall).err = 0) :=
  ⟨(ngx_log_debug_mask_spec DebugMask.Core { log_level := 16 } [65]).1.mpr
      (by decide),
   (ngx_log_debug_mask_spec DebugMask.Core { log_level := 16 } [65]).2
      ⟨NGX_LOG_DEBUG, { log_level := 16 }, 0, 1, [65]⟩ (by decide)⟩

/-- C7: the default-mask debug entry point equals the explicit-mask entry
point at `DebugMask.All`; consequently it emits iff the sink's log level
has any bit of the `NGX_LOG_DEBUG_ALL` union set. -/
theorem ngx_log_debug_default_spec (log : ngx_log_t) (msg : List UInt8) :
    ngx_log_debug log msg = ngx_log_debug_mask DebugMask.All log msg ∧
    ((ngx_log_debug log msg).writes ≠ [] ↔
      log.log_level &&& NGX_LOG_DEBUG_ALL ≠ 0) := by
  refine ⟨rfl, ?_⟩
  exact (ngx_log_debug_mask_emits_iff DebugMask.All log msg).trans
    (check_mask_true_iff DebugMask.All log.log_level)

/-- Witness for C7 at log level 16: the two entry points agree and the
default-mask entry point emits. -/
theorem ngx_log_debug_default_spec_witness :
    ngx_log_debug { log_level := 16 } [65] =
      ngx_log_debug_mask DebugMask.All { log_level := 16 } [65] ∧
    (ngx_log_debug { log_level := 16 } [65]).writes ≠ [] :=
  ⟨(ngx_log_debug_default_spec { log_level := 16 } [65]).1,
   (ngx_log_debug_default_spec { log_level := 16 } [65]).2.mpr (by decide)⟩

/-- C9: for every entry point, a rejected level or mask check yields no
observable effect (zero formats, no forwarded call), and every call
forwards at most one message. -/
theorem entry_points_frame (level : Nat) (log : ngx_log_t)
    (cf : ngx_conf_t) (mask : DebugMask) (r : ngx_request_t)
    (msg : List UInt8) :
    (¬ level < log.log_level →
      ngx_log_error level log msg = { formats := 0, writes := [] }) ∧
    (ngx_log_error level log msg).writes.length ≤ 1 ∧
    (¬ level < cf.log.log_level →
      ngx_conf_log_error level cf msg = { formats := 0, writes := [] }) ∧
    (ngx_conf_log_error level cf msg).writes.length ≤ 1 ∧
    (check_mask mask log.log_level = false →
      ngx_log_debug_mask mask log msg = { formats := 0, writes := [] }) ∧
    (ngx_log_debug_mask mask log msg).writes.length ≤ 1 ∧
    (check_mask DebugMask.All log.log_level = false →
      ngx_log_debug log msg = { formats := 0, writes := [] }) ∧
    (ngx_log_debug log msg).writes.length ≤ 1 ∧
    (check_mask DebugMask.Http r.connection.log.log_level = false →
      ngx_log_debug_http r msg = { formats := 0, writes := [] }) ∧
    (ngx_log_debug_http r msg).writes.length ≤ 1 := by
  refine ⟨fun h => by simp [ngx_log_error, h], ?_,
    fun h => by simp [ngx_conf_log_error, h], ?_,
    fun h => by simp [ngx_log_debug_mask, h], ?_,
    fun h => by simp [ngx_log_debug, ngx_log_debug_mask, h], ?_,
    fun h => by simp [ngx_log_debug_http, ngx_log_debug_mask, h], ?_⟩
  · unfold ngx_log_error
    split <;> simp
  · unfold ngx_conf_log_error
    split <;> simp
  · unfold ngx_log_debug_mask
    split <;> simp
  · unfold ngx_log_debug ngx_log_debug_mask
    split <;> simp
  · unfold ngx_log_debug_http ngx_log_debug_mask
    split <;> simp

/-- Witness for C9: at level 9 against threshold 5 and a log level 5 that
enables no debug category, every entry point does nothing. -/
theorem entry_points_frame_witness :
    ngx_log_error 9 { log_level := 5 } [] = { formats := 0, writes := [] } ∧
    ngx_conf_log_error 9 { log := { log_level := 5 } } [] =
      { formats := 0, writes := [] } ∧
    ngx_log_debug_mask DebugMask.Core { log_level := 5 } [] =
      { formats := 0, writes := [] } ∧
    ngx_log_debug { log_level := 5 } [] = { formats := 0, writes := [] } ∧
    ngx_log_debug_http
        { connection := { log := { log_level := 5 } } } [] =
      { formats := 0, writes := [] } :=
  ⟨(entry_points_frame 9 { log_level := 5 } { log := { log_level := 5 } }
      DebugMask.Core { connection := { log := { log_level := 5 } } } []).1
      (by decide),
   (entry_points_frame 9 { log_level := 5 } { log := { log_level := 5 } }
      DebugMask.Core { connection := { log := { log_level := 5 } } }
      []).2.2.1 (by decide),
   (entry_points_frame 9 { log_level := 5 } { log := { log_level := 5 } }
      DebugMask.Core { connection := { log := { log_level := 5 } } }
      []).2.2.2.2.1 (by decide),
   (entry_points_frame 9 { log_level := 5 } { log := { log_level := 5 } }
      DebugMask.Core { connection := { log := { log_level := 5 } } }
      []).2.2.2.2.2.2.1 (by decide),
   (entry_points_frame 9 { log_level := 5 } { log := { log_level := 5 } }
      DebugMask.Core { connection := { log := { log_level := 5 } } }
      []).2.2.2.2.2.2.2.2.1 (by decide)⟩

end NgxRust
